import Mathlib

/-!
Verification of the SimVerse force-field engine against its design document.

The development shallowly embeds `src/controls/SimController.ts` together with
the action executor (`executeActions` / `getRegionById`) and the data model in
`src/models`. JavaScript numbers are modelled as real numbers (`Math.hypot`
becomes `Real.sqrt`); JavaScript object identity, which matters only for the
world state returned by `getWorldState`, is modelled by storing the world
behind a natural-number reference in an explicit heap, while data that the
controller only ever hands out through `structuredClone` (params, force
fields, annotations) is modelled as plain immutable values, which is exactly
the deep-copy semantics of `structuredClone`. The nondeterministic fresh ids
produced by `uid` are modelled by a per-controller counter, and the
`Math.random` stream consumed by `spawnBalls` by an explicit stream of reals
carried in the controller. No claim below depends on the value of an id or of
a random draw.
-/

namespace SimVerse

noncomputable section

open scoped Classical

/-- 2D vector, `Vec2` from `src/models/Params.ts`. -/
@[ext]
structure Vec2 where
  x : ℝ
  y : ℝ

/-- The `clamp` helper of `SimController.ts`: `Math.max(lo, Math.min(hi, n))`. -/
def clamp (n lo hi : ℝ) : ℝ := max lo (min hi n)

/-- Euclidean length, `len` in `SimController.ts` (`Math.hypot(v.x, v.y)`). -/
def len (v : Vec2) : ℝ := Real.sqrt (v.x * v.x + v.y * v.y)

/-- The `norm` helper of `SimController.ts`: vectors of length below `1e-9`
normalize to the zero vector, all others to `v / len v`. -/
def norm (v : Vec2) : Vec2 :=
  if len v < 1e-9 then ⟨0, 0⟩ else ⟨v.x / len v, v.y / len v⟩

/-- Componentwise subtraction, `sub` in `SimController.ts`. -/
def sub (a b : Vec2) : Vec2 := ⟨a.x - b.x, a.y - b.y⟩

/-- Scalar multiplication, `mul` in `SimController.ts`. -/
def mul (v : Vec2) (s : ℝ) : Vec2 := ⟨v.x * s, v.y * s⟩

/-- Componentwise addition; models the accumulation performed by
`Matter.Body.applyForce`, which adds the submitted force to `body.force`. -/
def vadd (a b : Vec2) : Vec2 := ⟨a.x + b.x, a.y + b.y⟩

/-- Wind force scale constant `FORCE_SCALE_WIND` of `SimController.ts`. -/
def FORCE_SCALE_WIND : ℝ := 0.00035

/-- Attractor force scale constant `FORCE_SCALE_ATTRACT` of `SimController.ts`. -/
def FORCE_SCALE_ATTRACT : ℝ := 0.00045

/-- Vortex force scale constant `FORCE_SCALE_VORTEX` of `SimController.ts`. -/
def FORCE_SCALE_VORTEX : ℝ := 0.00035

/-- Circular region, `RegionCircle` from `src/models/ForceField.ts`. -/
structure RegionCircle where
  center : Vec2
  radius : ℝ

/-- The `insideRegion` predicate of `SimController.ts`: an absent region means
global scope; otherwise squared distance to the center is compared with the
squared radius, boundary included. -/
def insideRegion (p : Vec2) (region : Option RegionCircle) : Prop :=
  match region with
  | none => True
  | some r =>
      (p.x - r.center.x) * (p.x - r.center.x) +
        (p.y - r.center.y) * (p.y - r.center.y) ≤ r.radius * r.radius

/-- Force-field discriminant, `ForceFieldType` from `src/models/ForceField.ts`. -/
inductive ForceFieldType where
  | wind
  | attractor
  | vortex
deriving DecidableEq

/-- Force-field record, `ForceField` from `src/models/ForceField.ts`.
`direction` is populated for wind, `center` for attractor and vortex;
`annotationId` and `regionAnnotationId` are the weak back-references used by
the cascading delete. -/
structure ForceField where
  id : String
  type : ForceFieldType
  strength : ℝ
  direction : Option Vec2 := none
  center : Option Vec2 := none
  region : Option RegionCircle := none
  annotationId : Option String := none
  regionAnnotationId : Option String := none

/-- Arrow annotation record from `src/models/Annotation.ts`. -/
structure ArrowAnnotation where
  id : String
  start : Vec2
  «end» : Vec2

/-- Region annotation record from `src/models/Annotation.ts`. -/
structure RegionAnnotation where
  id : String
  center : Vec2
  radius : ℝ

/-- Spiral annotation record from `src/models/Annotation.ts`. -/
structure SpiralAnnotation where
  id : String
  center : Vec2
  radius : ℝ
  clockwise : Bool

/-- The tagged union `Annotation` from `src/models/Annotation.ts`. -/
inductive Annotation where
  | arrow (a : ArrowAnnotation)
  | region (r : RegionAnnotation)
  | spiral (s : SpiralAnnotation)

/-- The `id` field shared by all annotation variants. -/
def Annotation.id : Annotation → String
  | .arrow a => a.id
  | .region r => r.id
  | .spiral s => s.id

/-- A movable body owned by the external physics engine (Matter.js).
`force` is the engine's per-tick force accumulator that
`Matter.Body.applyForce` adds into. -/
structure Body where
  position : Vec2
  velocity : Vec2
  radius : ℝ
  frictionAir : ℝ
  restitution : ℝ
  force : Vec2

/-- The mutable world owned by the external engine: `WorldState` from
`src/engine/createWorld.ts`, with `engine.gravity` flattened into `gravity`.
Static walls are irrelevant to every claim and carried opaquely. -/
structure WorldData where
  gravity : Vec2
  walls : List Body
  balls : List Body
  width : ℝ
  height : ℝ

/-- The heap of world objects. JavaScript passes `WorldState` by reference;
a `SimController` holds a reference (`worldRef`) into this heap, and
`getWorldState` hands that same reference to the caller. -/
abbrev Heap := ℕ → WorldData

/-- Mutating the world object stored at reference `r` (for instance, a caller
writing through the object returned by `getWorldState`). -/
def heapWrite (h : Heap) (r : ℕ) (d : WorldData) : Heap :=
  Function.update h r d

/-- Physics parameters, `Params` from `src/models/Params.ts`. -/
structure Params where
  gravity : Vec2
  airFriction : ℝ
  restitution : ℝ
  ballRadius : ℝ
  ballCount : ℕ

/-- Controller state: the private fields of the `SimController` class.
`nextId` is the deterministic stand-in for `uid`'s fresh random identifiers,
and `rand`/`randIndex` for the `Math.random` stream read by `spawnBalls`. -/
structure SimController where
  width : ℝ
  height : ℝ
  params : Params
  worldRef : ℕ
  forceFields : List ForceField
  annotations : List Annotation
  nextId : ℕ
  rand : ℕ → ℝ
  randIndex : ℕ

/-- Fresh-identifier maker, `uid` from `src/utils/id.ts`: the source draws a
random UUID suffix; the model uses the controller's id counter as suffix. -/
def uid (pre : String) (n : ℕ) : String := pre ++ "_" ++ toString n

/-- Id tag used by the force-field creators (`uid("ff")`). -/
def ffTag : String := "ff"

/-- Id tag used by the annotation creators (`uid("ann")`). -/
def annTag : String := "ann"

/-- Accessor `getParams`: the source returns `structuredClone(this.params)`,
a deep copy; in the value model the copy is the stored value itself. -/
def getParams (c : SimController) : Params := c.params

/-- Accessor `getForceFields`: `structuredClone(this.forceFields)`. -/
def getForceFields (c : SimController) : List ForceField := c.forceFields

/-- Accessor `getAnnotations`: `structuredClone(this.annotations)`. -/
def getAnnotations (c : SimController) : List Annotation := c.annotations

/-- Accessor `getWorldState`: the source executes `return this.worldState;`,
handing the caller the controller's own live world object — modelled as the
internal heap reference itself, not a copy of the world data. -/
def getWorldState (c : SimController) : ℕ := c.worldRef

/-- `setGravity(g)`: stores `{x: g.x, y: g.y}` in `params.gravity` (no
clamping) and writes `g` into the engine's global `engine.gravity`; the
bodies themselves are not touched. -/
def setGravity (c : SimController) (h : Heap) (g : Vec2) :
    SimController × Heap :=
  ({ c with params := { c.params with gravity := ⟨g.x, g.y⟩ } },
   heapWrite h c.worldRef { h c.worldRef with gravity := ⟨g.x, g.y⟩ })

/-- `setAirFriction(value)`: clamps to `[0, 0.08]`, stores the clamped value
in `params.airFriction` and sets `frictionAir` on every live ball. -/
def setAirFriction (c : SimController) (h : Heap) (value : ℝ) :
    SimController × Heap :=
  let v := clamp value 0 0.08
  ({ c with params := { c.params with airFriction := v } },
   heapWrite h c.worldRef
     { h c.worldRef with
       balls := (h c.worldRef).balls.map fun b => { b with frictionAir := v } })

/-- `setRestitution(value)`: clamps to `[0, 1]`, stores the clamped value in
`params.restitution` and sets `restitution` on every live ball. -/
def setRestitution (c : SimController) (h : Heap) (value : ℝ) :
    SimController × Heap :=
  let v := clamp value 0 1
  ({ c with params := { c.params with restitution := v } },
   heapWrite h c.worldRef
     { h c.worldRef with
       balls := (h c.worldRef).balls.map fun b => { b with restitution := v } })

/-- One ball produced by `spawnBalls`, consuming four draws of the random
stream starting at index `i`: position
`(width*(0.2+r*0.6), height*(0.15+r*0.35))` and velocity
`((r-0.5)*4, (r-0.5)*4)`, sharing the controller's current radius, friction
and restitution parameters. -/
def mkSpawnedBall (c : SimController) (i : ℕ) : Body :=
  { position := ⟨c.width * (0.2 + c.rand i * 0.6),
                 c.height * (0.15 + c.rand (i + 1) * 0.35)⟩,
    velocity := ⟨(c.rand (i + 2) - 0.5) * 4, (c.rand (i + 3) - 0.5) * 4⟩,
    radius := c.params.ballRadius,
    frictionAir := c.params.airFriction,
    restitution := c.params.restitution,
    force := ⟨0, 0⟩ }

/-- `spawnBalls(count)`: clamps `Math.floor(count)` to `[1, 200]`, creates
that many randomized balls and registers them with the world. -/
def spawnBalls (c : SimController) (h : Heap) (count : ℝ) :
    SimController × Heap :=
  let n : ℕ := (max 1 (min 200 ⌊count⌋)).toNat
  let newBalls := (List.range n).map fun k => mkSpawnedBall c (c.randIndex + 4 * k)
  ({ c with randIndex := c.randIndex + 4 * n },
   heapWrite h c.worldRef
     { h c.worldRef with balls := (h c.worldRef).balls ++ newBalls })

/-- `clearForces()`: empties the force-field set only; the source comment
reads "clear forces only (do NOT nuke annotations)". -/
def clearForces (c : SimController) : SimController :=
  { c with forceFields := [] }

/-- `removeAnnotation(annotationId)`: filters out the annotation with that id,
then filters out every force field whose `annotationId` or
`regionAnnotationId` equals it. -/
def removeAnnotation (c : SimController) (annotationId : String) :
    SimController :=
  { c with
    annotations := c.annotations.filter fun a => Annotation.id a != annotationId,
    forceFields := c.forceFields.filter fun ff =>
      ff.annotationId != some annotationId &&
        ff.regionAnnotationId != some annotationId }

/-- The force-field record constructed by `addWind`: the direction is
normalized by `norm` and the strength clamped to `[0, 1]`. -/
def mkWindField (id : String) (direction : Vec2) (strength01 : ℝ)
    (region : Option RegionCircle) (annotationId regionAnnotationId : Option String) :
    ForceField :=
  { id := id, type := .wind, strength := clamp strength01 0 1,
    direction := some (norm direction), region := region,
    annotationId := annotationId, regionAnnotationId := regionAnnotationId }

/-- `addWind(direction, strength01, region?, annotationId?, regionAnnotationId?)`:
pushes the new field and returns its id. -/
def addWind (c : SimController) (direction : Vec2) (strength01 : ℝ)
    (region : Option RegionCircle) (annotationId regionAnnotationId : Option String) :
    SimController × String :=
  let field := mkWindField (uid ffTag c.nextId) direction strength01 region
    annotationId regionAnnotationId
  ({ c with forceFields := c.forceFields ++ [field], nextId := c.nextId + 1 },
   field.id)

/-- The force-field record constructed by `addAttractor`. -/
def mkAttractorField (id : String) (center : Vec2) (strength01 : ℝ)
    (region : Option RegionCircle) (annotationId regionAnnotationId : Option String) :
    ForceField :=
  { id := id, type := .attractor, strength := clamp strength01 0 1,
    center := some center, region := region,
    annotationId := annotationId, regionAnnotationId := regionAnnotationId }

/-- `addAttractor(center, strength01, region?, ...)`. -/
def addAttractor (c : SimController) (center : Vec2) (strength01 : ℝ)
    (region : Option RegionCircle) (annotationId regionAnnotationId : Option String) :
    SimController × String :=
  let field := mkAttractorField (uid ffTag c.nextId) center strength01 region
    annotationId regionAnnotationId
  ({ c with forceFields := c.forceFields ++ [field], nextId := c.nextId + 1 },
   field.id)

/-- The force-field record constructed by `addVortex`: the stored strength is
`clamp(strength01, 0, 1) * (clockwise ? 1 : -1)`. -/
def mkVortexField (id : String) (center : Vec2) (strength01 : ℝ)
    (clockwise : Bool) (region : Option RegionCircle)
    (annotationId regionAnnotationId : Option String) : ForceField :=
  { id := id, type := .vortex,
    strength := clamp strength01 0 1 * (if clockwise then 1 else -1),
    center := some center, region := region,
    annotationId := annotationId, regionAnnotationId := regionAnnotationId }

/-- `addVortex(center, strength01, clockwise, region?, ...)`. -/
def addVortex (c : SimController) (center : Vec2) (strength01 : ℝ)
    (clockwise : Bool) (region : Option RegionCircle)
    (annotationId regionAnnotationId : Option String) : SimController × String :=
  let field := mkVortexField (uid ffTag c.nextId) center strength01 clockwise
    region annotationId regionAnnotationId
  ({ c with forceFields := c.forceFields ++ [field], nextId := c.nextId + 1 },
   field.id)

/-- `addRegionAnnotation(center, radius)`: radius clamped to `[20, 450]`. -/
def addRegionAnnotation (c : SimController) (center : Vec2) (radius : ℝ) :
    SimController × String :=
  let ann : RegionAnnotation :=
    { id := uid annTag c.nextId, center := center, radius := clamp radius 20 450 }
  ({ c with annotations := c.annotations ++ [ Annotation.region ann],
            nextId := c.nextId + 1 },
   ann.id)

/-- `addArrowAnnotation(start, end)`. -/
def addArrowAnnotation (c : SimController) (start stop : Vec2) :
    SimController × String :=
  let ann : ArrowAnnotation := { id := uid annTag c.nextId, start := start, «end» := stop }
  ({ c with annotations := c.annotations ++ [ Annotation.arrow ann],
            nextId := c.nextId + 1 },
   ann.id)

/-- `addSpiralAnnotation(center, radius, clockwise)`: radius clamped to
`[20, 450]`. -/
def addSpiralAnnotation (c : SimController) (center : Vec2) (radius : ℝ)
    (clockwise : Bool) : SimController × String :=
  let ann : SpiralAnnotation :=
    { id := uid annTag c.nextId, center := center,
      radius := clamp radius 20 450, clockwise := clockwise }
  ({ c with annotations := c.annotations ++ [ Annotation.spiral ann],
            nextId := c.nextId + 1 },
   ann.id)

/-- The force vector one field contributes to a body at position `p`, read off
the three branches of `applyForceFields`. A wind field lacking a direction, or
an attractor/vortex lacking a center, performs no `applyForce` call, which the
model renders as the zero vector. -/
def fieldForce (f : ForceField) (p : Vec2) : Vec2 :=
  match f.type with
  | .wind =>
      match f.direction with
      | some d => mul d (f.strength * FORCE_SCALE_WIND)
      | none => ⟨0, 0⟩
  | .attractor =>
      match f.center with
      | some ctr =>
          let toC := sub ctr p
          let dist := clamp (len toC) 30 800
          let dir := norm toC
          let mag := (f.strength * FORCE_SCALE_ATTRACT) * (200 / dist)
          mul dir mag
      | none => ⟨0, 0⟩
  | .vortex =>
      match f.center with
      | some ctr =>
          let toC := sub p ctr
          let dist := clamp (len toC) 40 900
          let tangential := norm ⟨-toC.y, toC.x⟩
          let mag := (|f.strength| * FORCE_SCALE_VORTEX) * (250 / dist)
          let signed : ℝ := if 0 ≤ f.strength then 1 else -1
          mul tangential (mag * signed)
      | none => ⟨0, 0⟩

/-- The contribution of one field to a body at `p` including the region gate:
`applyForceFields` skips the field (`continue`) when `insideRegion` fails. -/
def fieldContribution (f : ForceField) (p : Vec2) : Vec2 :=
  if insideRegion p f.region then fieldForce f p else ⟨0, 0⟩

/-- Total force submitted to a body at `p` during one accumulation pass:
`Matter.Body.applyForce` adds each field's contribution into the body's force
accumulator. -/
def accumulatedForce (fields : List ForceField) (p : Vec2) : Vec2 :=
  fields.foldl (fun acc f => vadd acc (fieldContribution f p)) ⟨0, 0⟩

/-- The private `applyForceFields` pass run by `step` before integration:
returns early when no field is active, otherwise adds every field's
contribution to every ball's force accumulator. -/
def applyForceFields (c : SimController) (h : Heap) : Heap :=
  if c.forceFields.length = 0 then h
  else
    heapWrite h c.worldRef
      { h c.worldRef with
        balls := (h c.worldRef).balls.map fun b =>
          { b with force := vadd b.force (accumulatedForce c.forceFields b.position) } }

/-- Parameter keys of the AI action vocabulary (`ParamKey` in `ai/types.ts`). -/
inductive ParamKey where
  | gravityY
  | airFriction
  | restitution
deriving DecidableEq

/-- The validated AI actions (`Action` in `ai/types.ts`). -/
inductive Action where
  | set_param (key : ParamKey) (value : ℝ)
  | spawn_balls (count : ℝ)
  | clear_forces
  | clear_annotations
  | add_wind (direction : Vec2) (strength : ℝ) (regionAnnotationId : Option String)
  | add_attractor (center : Vec2) (strength : ℝ) (regionAnnotationId : Option String)
  | add_vortex (center : Vec2) (strength : ℝ) (clockwise : Bool)
      (regionAnnotationId : Option String)

/-- The `getRegionById` helper of the action executor: a missing id — in
JavaScript also the falsy empty string — resolves to `null`, as does an id
naming no annotation or one that is not a region annotation. -/
def getRegionById (annotations : List Annotation) (id : Option String) :
    Option RegionAnnotation :=
  match id with
  | none => none
  | some s =>
      if s = "" then none
      else
        match annotations.find? fun x => Annotation.id x == s with
        | some ( Annotation.region r) => some r
        | _ => none

/-- One iteration of the `executeActions` switch. The `snapshot` argument is
the annotation list captured once, before the loop, by
`const annotations = controller.getAnnotations()`; the `add_*` branches
resolve their region reference against it. -/
def execOne (snapshot : List Annotation) :
    SimController × Heap → Action → SimController × Heap
  | (c, h), .set_param key value =>
      match key with
      | .gravityY => setGravity c h ⟨0, value⟩
      | .airFriction => setAirFriction c h value
      | .restitution => setRestitution c h value
  | (c, h), .spawn_balls count => spawnBalls c h count
  | (c, h), .clear_forces => (clearForces c, h)
  | (c, h), .clear_annotations =>
      ((getAnnotations c).foldl
        (fun acc ann => removeAnnotation acc ( Annotation.id ann)) c, h)
  | (c, h), .add_wind direction strength rid =>
      let region := getRegionById snapshot rid
      ((addWind c direction strength
          (region.map fun r => ⟨r.center, r.radius⟩) none
          (region.map fun r => r.id)).1, h)
  | (c, h), .add_attractor center strength rid =>
      let region := getRegionById snapshot rid
      ((addAttractor c center strength
          (region.map fun r => ⟨r.center, r.radius⟩) none
          (region.map fun r => r.id)).1, h)
  | (c, h), .add_vortex center strength clockwise rid =>
      let region := getRegionById snapshot rid
      ((addVortex c center strength clockwise
          (region.map fun r => ⟨r.center, r.radius⟩) none
          (region.map fun r => r.id)).1, h)

/-- The `executeActions` function of the AI execution layer: snapshots the
annotation registry once, then runs every action in order against that
snapshot. Every switch branch pushes its action onto `executed`, so the
returned executed list equals the input list. -/
def executeActions (controller : SimController) (h : Heap)
    (actions : List Action) : (SimController × Heap) × List Action :=
  let annotations := getAnnotations controller
  (actions.foldl (execOne annotations) (controller, h), actions)

/-- Default parameters, `DEFAULT_PARAMS` from `src/models/Params.ts`. -/
def DEFAULT_PARAMS : Params :=
  { gravity := ⟨0, 0.2⟩, airFriction := 0.01, restitution := 0.9,
    ballRadius := 14, ballCount := 20 }

/-- A concrete ball at position `(100, 100)`, used by witnesses. -/
def sampleBody : Body :=
  { position := ⟨100, 100⟩, velocity := ⟨0, 0⟩, radius := 14,
    frictionAir := 0.01, restitution := 0.9, force := ⟨0, 0⟩ }

/-- A concrete world holding the sample ball. -/
def sampleWorld : WorldData :=
  { gravity := ⟨0, 0.2⟩, walls := [], balls := [sampleBody],
    width := 800, height := 600 }

/-- A concrete heap: every reference holds the sample world. -/
def sampleHeap : Heap := fun _ => sampleWorld

/-- The sample world after a caller writes a new gravity through the object
returned by `getWorldState`. -/
def mutatedWorld : WorldData := { sampleWorld with gravity := ⟨0, 0.9⟩ }

/-- A concrete controller with empty registries, used by witnesses. -/
def sampleCtrl : SimController :=
  { width := 800, height := 600, params := DEFAULT_PARAMS, worldRef := 0,
    forceFields := [], annotations := [], nextId := 0,
    rand := fun _ => 0, randIndex := 0 }

/-- The sample controller after `addRegionAnnotation({x:400,y:300}, 100)`. -/
def regionCtrl : SimController :=
  ( addRegionAnnotation sampleCtrl ⟨400, 300⟩ 100).1

/-- The id returned by that `addRegionAnnotation` call. -/
def regionId : String := ( addRegionAnnotation sampleCtrl ⟨400, 300⟩ 100).2

/-- Scaling the zero vector gives the zero vector. -/
theorem mul_zero_vec (s : ℝ) : mul ⟨0, 0⟩ s = (⟨0, 0⟩ : Vec2) := by
  ext <;> simp [mul]

/-- Adding a force to a zero accumulator gives the force. -/
theorem vadd_zero_left (v : Vec2) : vadd ⟨0, 0⟩ v = v := by
  ext <;> simp [vadd]

/-- The length of the zero vector is zero. -/
theorem len_zero_vec : len ⟨0, 0⟩ = 0 := by simp [len]

/-- Normalizing the zero vector yields the zero vector. -/
theorem norm_zero_vec : norm ⟨0, 0⟩ = (⟨0, 0⟩ : Vec2) := by
  simp only [norm, len_zero_vec]
  rw [if_pos (show (0 : ℝ) < 1e-9 by norm_num)]

/-- A vector of length below the `1e-9` cutoff normalizes to zero. -/
theorem norm_small (v : Vec2) (hv : len v < 1e-9) : norm v = (⟨0, 0⟩ : Vec2) := by
  rw [norm, if_pos hv]

/-- Subtracting a vector from itself gives the zero vector. -/
theorem sub_self_vec (v : Vec2) : sub v v = (⟨0, 0⟩ : Vec2) := by
  ext <;> simp [sub]

/-- The clamp helper is bounded below by `lo` whenever `lo ≤ hi` holds
trivially through `max`. -/
theorem clamp_lower (n lo hi : ℝ) : lo ≤ clamp n lo hi := le_max_left lo (min hi n)

/-- The clamp helper is bounded above by `hi` when `lo ≤ hi`. -/
theorem clamp_upper (n lo hi : ℝ) (h : lo ≤ hi) : clamp n lo hi ≤ hi :=
  max_le h (min_le_left hi n)

/-- A field whose region is absent always passes the region gate. -/
theorem fieldContribution_of_no_region (f : ForceField) (hr : f.region = none)
    (p : Vec2) : fieldContribution f p = fieldForce f p := by
  rw [fieldContribution, if_pos (show insideRegion p f.region by rw [hr]; trivial)]

/-- Unfolding equation for the force of a constructed wind field. -/
theorem fieldForce_mkWind (id : String) (d : Vec2) (s : ℝ)
    (r : Option RegionCircle) (a b : Option String) (p : Vec2) :
    fieldForce (mkWindField id d s r a b) p =
      mul (norm d) (clamp s 0 1 * FORCE_SCALE_WIND) := rfl

/-- Unfolding equation for the force of a constructed attractor field. -/
theorem fieldForce_mkAttractor (id : String) (ctr : Vec2) (s : ℝ)
    (r : Option RegionCircle) (a b : Option String) (p : Vec2) :
    fieldForce (mkAttractorField id ctr s r a b) p =
      mul (norm (sub ctr p))
        ((clamp s 0 1 * FORCE_SCALE_ATTRACT) *
          (200 / clamp (len (sub ctr p)) 30 800)) := rfl

/-- Unfolding equation for the force of a constructed vortex field. -/
theorem fieldForce_mkVortex (id : String) (ctr : Vec2) (s : ℝ) (cw : Bool)
    (r : Option RegionCircle) (a b : Option String) (p : Vec2) :
    fieldForce (mkVortexField id ctr s cw r a b) p =
      mul (norm ⟨-(sub p ctr).y, (sub p ctr).x⟩)
        (((|clamp s 0 1 * (if cw then 1 else -1)| * FORCE_SCALE_VORTEX) *
            (250 / clamp (len (sub p ctr)) 40 900)) *
          (if 0 ≤ clamp s 0 1 * (if cw then 1 else -1) then 1 else -1)) := rfl

/-- C7: `insideRegion` returns true when the region is absent, and otherwise
holds exactly when the squared distance from the point to the center is at
most the squared radius; in particular a point at Euclidean distance exactly
`radius` from the center is inside (boundary-inclusive). -/
theorem insideRegion_spec (p : Vec2) (r : RegionCircle) :
    insideRegion p none ∧
    (insideRegion p (some r) ↔
      (p.x - r.center.x) * (p.x - r.center.x) +
          (p.y - r.center.y) * (p.y - r.center.y) ≤ r.radius * r.radius) ∧
    (len (sub p r.center) = r.radius → insideRegion p (some r)) := by
  refine ⟨trivial, Iff.rfl, ?_⟩
  intro hlen
  have hnn : (0 : ℝ) ≤
      (p.x - r.center.x) * (p.x - r.center.x) +
        (p.y - r.center.y) * (p.y - r.center.y) :=
    add_nonneg (mul_self_nonneg _) (mul_self_nonneg _)
  have hsq : len (sub p r.center) * len (sub p r.center) =
      (p.x - r.center.x) * (p.x - r.center.x) +
        (p.y - r.center.y) * (p.y - r.center.y) := by
    simp only [len, sub]
    exact Real.mul_self_sqrt hnn
  show (p.x - r.center.x) * (p.x - r.center.x) +
      (p.y - r.center.y) * (p.y - r.center.y) ≤ r.radius * r.radius
  rw [← hlen, hsq]

/-- C7 witness: the point `(3, 4)` lies at distance exactly `5` from the
origin and is inside the region of radius `5` centered there. -/
theorem insideRegion_spec_witness :
    insideRegion ⟨3, 4⟩ (some ⟨⟨0, 0⟩, 5⟩) := by
  have hlen : len (sub ⟨3, 4⟩ (⟨0, 0⟩ : Vec2)) = 5 := by
    simp only [len, sub]
    rw [show ((3 : ℝ) - 0) * (3 - 0) + (4 - 0) * (4 - 0) = 5 ^ 2 by norm_num]
    exact Real.sqrt_sq (by norm_num)
  exact (insideRegion_spec ⟨3, 4⟩ ⟨⟨0, 0⟩, 5⟩).2.2 hlen

/-- C8: `clearForces` empties the force-field set, leaves the annotation set
exactly as it was, and is idempotent; being a total function of the state it
never throws. -/
theorem clearForces_spec (c : SimController) :
    (clearForces c).forceFields = [] ∧
    (clearForces c).annotations = c.annotations ∧
    clearForces (clearForces c) = clearForces c :=
  ⟨rfl, rfl, rfl⟩

/-- C4: a body exactly at an attractor's center sees an effective distance
clamped up to `30`, so the magnitude divides by `30` rather than `0`, and the
resulting force is the (finite, non-NaN) zero vector because the zero offset
normalizes to the zero direction. -/
theorem attractor_singularity_guard (f : ForceField) (ctr : Vec2)
    (hty : f.type = ForceFieldType.attractor) (hc : f.center = some ctr) :
    clamp (len (sub ctr ctr)) 30 800 = 30 ∧ fieldForce f ctr = ⟨0, 0⟩ := by
  have hclamp : clamp (len (sub ctr ctr)) 30 800 = 30 := by
    rw [sub_self_vec, len_zero_vec, clamp]
    norm_num
  refine ⟨hclamp, ?_⟩
  simp only [fieldForce, hty, hc]
  rw [sub_self_vec, norm_zero_vec, mul_zero_vec]

/-- C4 witness: a concrete attractor at `(50, 60)` evaluated on a body at its
own center produces the zero force through the clamped distance `30`. -/
theorem attractor_singularity_guard_witness :
    clamp (len (sub ⟨50, 60⟩ ⟨50, 60⟩)) 30 800 = 30 ∧
    fieldForce (mkAttractorField (uid ffTag 0) ⟨50, 60⟩ 0.6 none none none)
      ⟨50, 60⟩ = ⟨0, 0⟩ :=
  attractor_singularity_guard
    (mkAttractorField (uid ffTag 0) ⟨50, 60⟩ 0.6 none none none)
    ⟨50, 60⟩ rfl rfl

/-- C1: `removeAnnotation A` keeps exactly the annotations whose id differs
from `A` and exactly the force fields referencing neither `annotationId = A`
nor `regionAnnotationId = A`, preserving their order; when no annotation has
id `A` the annotation registry is untouched (a no-op, not an error), and when
additionally no field references `A` the whole controller is unchanged. -/
theorem removeAnnotation_spec (c : SimController) (aid : String) :
    (∀ a : Annotation, a ∈ ( removeAnnotation c aid).annotations ↔
        a ∈ c.annotations ∧ Annotation.id a ≠ aid) ∧
    (∀ f : ForceField, f ∈ ( removeAnnotation c aid).forceFields ↔
        f ∈ c.forceFields ∧ f.annotationId ≠ some aid ∧
          f.regionAnnotationId ≠ some aid) ∧
    ((∀ a ∈ c.annotations, Annotation.id a ≠ aid) →
        ( removeAnnotation c aid).annotations = c.annotations) ∧
    ((∀ a ∈ c.annotations, Annotation.id a ≠ aid) →
      (∀ f ∈ c.forceFields, f.annotationId ≠ some aid ∧
          f.regionAnnotationId ≠ some aid) →
        removeAnnotation c aid = c) := by
  have hann : (∀ a ∈ c.annotations, Annotation.id a ≠ aid) →
      ( removeAnnotation c aid).annotations = c.annotations := by
    intro hnone
    simp only [ removeAnnotation]
    exact List.filter_eq_self.mpr fun a ha => by
      simpa [bne_iff_ne] using hnone a ha
  refine ⟨?_, ?_, hann, ?_⟩
  · intro a
    simp [ removeAnnotation, List.mem_filter, bne_iff_ne]
  · intro f
    simp [ removeAnnotation, List.mem_filter, bne_iff_ne]
  · intro hnone hff
    have hf : ( removeAnnotation c aid).forceFields = c.forceFields := by
      simp only [ removeAnnotation]
      exact List.filter_eq_self.mpr fun f hfm => by
        have := hff f hfm
        simp [bne_iff_ne, this.1, this.2]
    have ha := hann hnone
    calc removeAnnotation c aid
        = { removeAnnotation c aid with
              annotations := c.annotations, forceFields := c.forceFields } := by
          rw [← ha, ← hf]
      _ = c := rfl

/-- C1 witness: removing an id that no annotation carries leaves a concrete
one-annotation registry unchanged. -/
theorem removeAnnotation_spec_witness :
    ( removeAnnotation regionCtrl (uid annTag 99)).annotations =
      regionCtrl.annotations := by
  refine (removeAnnotation_spec regionCtrl (uid annTag 99)).2.2.1 ?_
  intro a ha
  simp only [regionCtrl, addRegionAnnotation, sampleCtrl] at ha
  simp only [List.nil_append, List.mem_singleton] at ha
  subst ha
  simp only [ Annotation.id]
  decide

/-- C5: the field stored by `addVortex` with `clockwise = false` produces, at
every body position, exactly the negation of the force produced by the field
stored by `addVortex` with `clockwise = true` and the same center and
strength; the first conjunct ties the constructed record to `addVortex`. -/
theorem vortex_negation (c : SimController) (center : Vec2) (s : ℝ) (p : Vec2)
    (region : Option RegionCircle) (aid rid : Option String)
    (idcw idccw : String) :
    (addVortex c center s true region aid rid).1.forceFields =
      c.forceFields ++
        [mkVortexField (uid ffTag c.nextId) center s true region aid rid] ∧
    fieldForce (mkVortexField idccw center s false region aid rid) p =
      mul (fieldForce (mkVortexField idcw center s true region aid rid) p)
        (-1) := by
  refine ⟨rfl, ?_⟩
  have hk0 : (0 : ℝ) ≤ clamp s 0 1 := clamp_lower s 0 1
  have e1 : fieldForce (mkVortexField idcw center s true region aid rid) p =
      mul (norm ⟨-(sub p center).y, (sub p center).x⟩)
        (((|clamp s 0 1 * 1| * FORCE_SCALE_VORTEX) *
            (250 / clamp (len (sub p center)) 40 900)) *
          (if 0 ≤ clamp s 0 1 * 1 then 1 else -1)) := rfl
  have e2 : fieldForce (mkVortexField idccw center s false region aid rid) p =
      mul (norm ⟨-(sub p center).y, (sub p center).x⟩)
        (((|clamp s 0 1 * -1| * FORCE_SCALE_VORTEX) *
            (250 / clamp (len (sub p center)) 40 900)) *
          (if 0 ≤ clamp s 0 1 * -1 then 1 else -1)) := rfl
  rw [e1, e2, mul_one, show clamp s 0 1 * -1 = -clamp s 0 1 by ring,
    if_pos hk0]
  rcases eq_or_lt_of_le hk0 with h0 | hpos
  · rw [← h0]
    ext <;> simp [mul]
  · rw [if_neg (not_le.mpr (by linarith : -clamp s 0 1 < 0)), abs_neg]
    ext <;> simp [mul]

/-- C10: any direction of Euclidean length below `1e-9` — small nonzero
vectors included — is stored by `addWind` as the exact zero direction, and
the resulting wind field contributes the zero force to every body position,
region gate included. -/
theorem tiny_wind_zero (c : SimController) (direction : Vec2) (s : ℝ)
    (region : Option RegionCircle) (aid rid : Option String) (id : String)
    (hsmall : len direction < 1e-9) :
    (addWind c direction s region aid rid).1.forceFields =
      c.forceFields ++
        [mkWindField (uid ffTag c.nextId) direction s region aid rid] ∧
    (mkWindField id direction s region aid rid).direction = some ⟨0, 0⟩ ∧
    ∀ p : Vec2,
      fieldContribution (mkWindField id direction s region aid rid) p =
        ⟨0, 0⟩ := by
  have hdir : norm direction = (⟨0, 0⟩ : Vec2) := norm_small direction hsmall
  refine ⟨rfl, by simp [mkWindField, hdir], ?_⟩
  intro p
  rw [fieldContribution]
  split
  · rw [fieldForce_mkWind, hdir, mul_zero_vec]
  · rfl

/-- C10 witness: the nonzero direction `(1e-10, 0)` has length `1e-10`,
below the cutoff, and the stored wind direction is exactly `(0, 0)` with a
zero contribution at the sample body position. -/
theorem tiny_wind_zero_witness :
    len ⟨1e-10, 0⟩ < 1e-9 ∧
    (mkWindField (uid ffTag 0) ⟨1e-10, 0⟩ 1 none none none).direction =
      some ⟨0, 0⟩ ∧
    fieldContribution (mkWindField (uid ffTag 0) ⟨1e-10, 0⟩ 1 none none none)
      ⟨100, 100⟩ = ⟨0, 0⟩ := by
  have hlen : len ⟨1e-10, 0⟩ = 1e-10 := by
    simp only [len]
    rw [show ((1e-10 : ℝ) * 1e-10 + 0 * 0) = (1e-10 : ℝ) ^ 2 by ring]
    exact Real.sqrt_sq (by norm_num)
  have hsmall : len ⟨1e-10, 0⟩ < 1e-9 := by rw [hlen]; norm_num
  have h := tiny_wind_zero sampleCtrl ⟨1e-10, 0⟩ 1 none none none
    (uid ffTag 0) hsmall
  exact ⟨hsmall, h.2.1, h.2.2 ⟨100, 100⟩⟩

/-- C6: after `addWind({x:1,y:0}, 0.5)` with no region on a controller with no
other fields, the accumulation pass adds exactly `(0.5 * FORCE_SCALE_WIND, 0)`
to every ball's force accumulator whatever its position; and in general a wind
field's force is position-independent. -/
theorem wind_scenario (c : SimController) (h : Heap)
    (hcf : c.forceFields = []) :
    ((applyForceFields (addWind c ⟨1, 0⟩ 0.5 none none none).1 h)
        c.worldRef).balls =
      (h c.worldRef).balls.map
        (fun b => { b with
          force := vadd b.force ⟨0.5 * FORCE_SCALE_WIND, 0⟩ }) ∧
    (∀ f : ForceField, f.type = ForceFieldType.wind →
      ∀ p q : Vec2, fieldForce f p = fieldForce f q) := by
  constructor
  · have hnorm : norm ⟨1, 0⟩ = (⟨1, 0⟩ : Vec2) := by
      have hl : len ⟨1, 0⟩ = 1 := by
        simp only [len]
        rw [show ((1 : ℝ) * 1 + 0 * 0) = 1 by ring]
        exact Real.sqrt_one
      rw [norm, if_neg (by rw [hl]; norm_num), hl]
      ext <;> simp
    have hacc : ∀ p : Vec2,
        accumulatedForce
          [mkWindField (uid ffTag c.nextId) ⟨1, 0⟩ 0.5 none none none] p =
          ⟨0.5 * FORCE_SCALE_WIND, 0⟩ := by
      intro p
      rw [accumulatedForce, List.foldl_cons, List.foldl_nil,
        fieldContribution_of_no_region _ rfl, fieldForce_mkWind,
        vadd_zero_left, hnorm]
      have hcl : clamp 0.5 0 1 = 0.5 := by rw [clamp]; norm_num
      rw [hcl]
      ext <;> simp [mul]
    have hff : (addWind c ⟨1, 0⟩ 0.5 none none none).1.forceFields =
        [mkWindField (uid ffTag c.nextId) ⟨1, 0⟩ 0.5 none none none] := by
      simp [addWind, hcf]
    have hwr : (addWind c ⟨1, 0⟩ 0.5 none none none).1.worldRef =
        c.worldRef := rfl
    rw [applyForceFields, if_neg (by rw [hff]; simp), hff, hwr, heapWrite,
      Function.update_same]
    exact List.map_congr_left fun b _ => by rw [hacc]
  · intro f hf p q
    simp only [fieldForce, hf]

/-- C6 witness: on the concrete empty controller and the sample heap with one
ball at `(100, 100)`, the accumulation pass after the `addWind` call produces
exactly the sample ball carrying force `(0.5 * FORCE_SCALE_WIND, 0)`. -/
theorem wind_scenario_witness :
    ((applyForceFields (addWind sampleCtrl ⟨1, 0⟩ 0.5 none none none).1
        sampleHeap) sampleCtrl.worldRef).balls =
      [{ sampleBody with
          force := vadd sampleBody.force ⟨0.5 * FORCE_SCALE_WIND, 0⟩ }] := by
  rw [(wind_scenario sampleCtrl sampleHeap rfl).1]
  rfl

/-- C3 counterexample: `setGravity({x:0,y:100})` stores the raw value `100`
in the parameter snapshot — far outside the documented gravity range
`[0, 0.8]`, so no clamping to a safe range happens — and leaves every live
body's mutable properties untouched (only the engine-global gravity is
written). -/
theorem setGravity_no_clamp_counterexample :
    (setGravity sampleCtrl sampleHeap ⟨0, 100⟩).1.params.gravity.y = 100 ∧
    ¬ (setGravity sampleCtrl sampleHeap ⟨0, 100⟩).1.params.gravity.y ≤ 0.8 ∧
    ((setGravity sampleCtrl sampleHeap ⟨0, 100⟩).2 sampleCtrl.worldRef).balls =
      (sampleHeap sampleCtrl.worldRef).balls := by
  refine ⟨rfl, ?_, ?_⟩
  · show ¬ (100 : ℝ) ≤ 0.8
    norm_num
  · show (heapWrite sampleHeap sampleCtrl.worldRef
        { sampleHeap sampleCtrl.worldRef with gravity := ⟨0, 100⟩ }
        sampleCtrl.worldRef).balls = (sampleHeap sampleCtrl.worldRef).balls
    rw [heapWrite, Function.update_same]

/-- C3 amended: `setAirFriction` clamps to `[0, 0.08]` and `setRestitution`
to `[0, 1]`, each storing the clamped value in the parameter snapshot and
propagating it to every live ball's mutable property; `setGravity` stores its
argument unclamped and propagates it to the engine-global gravity, leaving
the bodies untouched. -/
theorem parameter_mutation_spec (c : SimController) (h : Heap) (g : Vec2)
    (v w : ℝ) :
    ((setGravity c h g).1.params.gravity = ⟨g.x, g.y⟩ ∧
      ((setGravity c h g).2 c.worldRef).gravity = ⟨g.x, g.y⟩ ∧
      ((setGravity c h g).2 c.worldRef).balls = (h c.worldRef).balls) ∧
    ((setAirFriction c h v).1.params.airFriction = clamp v 0 0.08 ∧
      0 ≤ (setAirFriction c h v).1.params.airFriction ∧
      (setAirFriction c h v).1.params.airFriction ≤ 0.08 ∧
      ((setAirFriction c h v).2 c.worldRef).balls =
        (h c.worldRef).balls.map
          (fun b => { b with frictionAir := clamp v 0 0.08 })) ∧
    ((setRestitution c h w).1.params.restitution = clamp w 0 1 ∧
      0 ≤ (setRestitution c h w).1.params.restitution ∧
      (setRestitution c h w).1.params.restitution ≤ 1 ∧
      ((setRestitution c h w).2 c.worldRef).balls =
        (h c.worldRef).balls.map
          (fun b => { b with restitution := clamp w 0 1 })) := by
  refine ⟨⟨rfl, ?_, ?_⟩, ⟨rfl, clamp_lower v 0 0.08,
    clamp_upper v 0 0.08 (by norm_num), ?_⟩, ⟨rfl, clamp_lower w 0 1,
    clamp_upper w 0 1 (by norm_num), ?_⟩⟩
  · show (heapWrite h c.worldRef
        { h c.worldRef with gravity := ⟨g.x, g.y⟩ } c.worldRef).gravity =
      ⟨g.x, g.y⟩
    rw [heapWrite, Function.update_same]
  · show (heapWrite h c.worldRef
        { h c.worldRef with gravity := ⟨g.x, g.y⟩ } c.worldRef).balls =
      (h c.worldRef).balls
    rw [heapWrite, Function.update_same]
  · show (heapWrite h c.worldRef
        { h c.worldRef with
          balls := (h c.worldRef).balls.map fun b =>
            { b with frictionAir := clamp v 0 0.08 } } c.worldRef).balls = _
    rw [heapWrite, Function.update_same]
  · show (heapWrite h c.worldRef
        { h c.worldRef with
          balls := (h c.worldRef).balls.map fun b =>
            { b with restitution := clamp w 0 1 } } c.worldRef).balls = _
    rw [heapWrite, Function.update_same]

/-- C2 counterexample: a caller that mutates the object returned by
`getWorldState` (modelled as a heap write through the returned reference)
changes the controller's subsequently observed world state: the observed
gravity flips from `0.2` to `0.9`, so `getWorldState` does not return an
independent snapshot. -/
theorem getWorldState_aliasing_counterexample :
    (sampleHeap (getWorldState sampleCtrl)).gravity.y = 0.2 ∧
    ((heapWrite sampleHeap (getWorldState sampleCtrl) mutatedWorld)
        (getWorldState sampleCtrl)).gravity.y = 0.9 ∧
    (heapWrite sampleHeap (getWorldState sampleCtrl) mutatedWorld)
        (getWorldState sampleCtrl) ≠
      sampleHeap (getWorldState sampleCtrl) := by
  refine ⟨rfl, ?_, ?_⟩
  · rw [heapWrite, Function.update_same]
    rfl
  · intro heq
    have hy := congrArg (fun w => w.gravity.y) heq
    rw [heapWrite, Function.update_same] at hy
    have : (0.9 : ℝ) = 0.2 := hy
    norm_num at this

/-- C2 amended: `getParams`, `getForceFields` and `getAnnotations` return the
stored registries as plain values (the model of `structuredClone`'s deep
copy, which shares nothing with the controller), but `getWorldState` returns
the controller's internal world reference itself, so a write through the
returned reference is visible in the controller's subsequently observed
world. -/
theorem read_accessor_spec (c : SimController) (h : Heap) (d : WorldData) :
    getParams c = c.params ∧
    getForceFields c = c.forceFields ∧
    getAnnotations c = c.annotations ∧
    getWorldState c = c.worldRef ∧
    (heapWrite h (getWorldState c) d) (getWorldState c) = d :=
  ⟨rfl, rfl, rfl, rfl, by rw [heapWrite, getWorldState, Function.update_same]⟩

/-- The batch used to probe region resolution: clear all annotations, then
add a wind field constrained to the region annotation created earlier. -/
def staleActions : List Action :=
  [ Action.clear_annotations, Action.add_wind ⟨1, 0⟩ 0.5 (some regionId)]

/-- The controller after executing that batch on `regionCtrl`. -/
def staleResult : SimController :=
  (executeActions regionCtrl sampleHeap staleActions).1.1

/-- C9 counterexample: in a batch whose first action removes every
annotation, the later `add_wind` still resolves its `regionAnnotationId`
against the snapshot taken before the loop: although the annotation registry
is empty when the `add_wind` action executes (and stays empty — `add_wind`
never touches annotations), the created field carries the deleted region and
its id, not the global scope the claim requires. -/
theorem stale_region_counterexample :
    staleResult.annotations = [] ∧
    staleResult.forceFields.map (fun f => f.region) =
      [some ⟨⟨400, 300⟩, 100⟩] ∧
    staleResult.forceFields.map (fun f => f.regionAnnotationId) =
      [some regionId] := by
  have hcl : clamp 100 20 450 = (100 : ℝ) := by rw [clamp]; norm_num
  refine ⟨rfl, ?_, rfl⟩
  rw [← hcl]
  rfl

/-- C9 amended: a region reference carried by an action is resolved against
the snapshot of the annotation registry taken when `executeActions` begins
(hence against the live registry as of execution of the batch, not of
planning); when no region annotation with that id exists in the snapshot, the
field is created with no region (global scope) and no region back-reference,
not an error. -/
theorem region_resolution_spec (c : SimController) (h : Heap) (d : Vec2)
    (s : ℝ) (rid : Option String) :
    (executeActions c h [ Action.add_wind d s rid]).1.1.forceFields =
      c.forceFields ++
        [mkWindField (uid ffTag c.nextId) d s
          ((getRegionById (getAnnotations c) rid).map fun r =>
            ⟨r.center, r.radius⟩)
          none
          ((getRegionById (getAnnotations c) rid).map fun r => r.id)] ∧
    (getRegionById (getAnnotations c) rid = none →
      (executeActions c h [ Action.add_wind d s rid]).1.1.forceFields =
        c.forceFields ++
          [mkWindField (uid ffTag c.nextId) d s none none none]) := by
  have h1 : (executeActions c h [ Action.add_wind d s rid]).1.1.forceFields =
      c.forceFields ++
        [mkWindField (uid ffTag c.nextId) d s
          ((getRegionById (getAnnotations c) rid).map fun r =>
            ⟨r.center, r.radius⟩)
          none
          ((getRegionById (getAnnotations c) rid).map fun r => r.id)] := rfl
  exact ⟨h1, fun hnone => h1.trans (by rw [hnone]; simp)⟩

/-- C9 witness: on a controller with no annotations, an `add_wind` action
naming an unknown region id creates a field with global scope. -/
theorem region_resolution_spec_witness :
    (executeActions sampleCtrl sampleHeap
        [ Action.add_wind ⟨2, 0⟩ 0.7 (some regionId)]).1.1.forceFields =
      [mkWindField (uid ffTag 0) ⟨2, 0⟩ 0.7 none none none] := by
  have h := (region_resolution_spec sampleCtrl sampleHeap ⟨2, 0⟩ 0.7
    (some regionId)).2 rfl
  simpa [sampleCtrl] using h

end

end SimVerse
